import Mathlib

/-!
Verification of the DuckDB connection adapter
(`src/core/src/sql/db_connection_pool/dbconnection/duckdbconn.rs`).

The development shallowly embeds the pure logic of the adapter: the Arrow data-type
supportability check, the schema reconciler, the multi-catalog attachment
manager (as a trace/state model over an engine catalog state), the table
reference classifier, and the sync-to-async query bridge (sequentialized as
the list of items the consumer stream yields).
-/

namespace DuckDBConn

/-! ## Arrow data model

The Arrow `DataType` is mutually recursive with `Field` (lists carry an element
`Field`, structs carry a field collection).  The field collection is embedded
as its own inductive (`FieldList`) so that all recursion stays structural. -/

mutual

inductive DataType where
  | null
  | boolean
  | int8 | int16 | int32 | int64
  | uint8 | uint16 | uint32 | uint64
  | float16 | float32 | float64
  | timestamp
  | date32 | date64
  | time32 | time64
  | duration
  | interval
  | binary
  | fixedSizeBinary (n : Int)
  | largeBinary
  | binaryView
  | utf8
  | largeUtf8
  | utf8View
  | list (elem : Field)
  | listView (elem : Field)
  | fixedSizeList (elem : Field) (n : Int)
  | largeList (elem : Field)
  | largeListView (elem : Field)
  | struct (fields : FieldList)
  | union
  | dictionary (key value : DataType)
  | decimal128 (precision scale : Nat)
  | decimal256 (precision scale : Nat)
  | map (entries : Field) (sorted : Bool)
  | runEndEncoded (runEnds values : Field)

inductive Field where
  | mk (name : String) (dataType : DataType) (nullable : Bool)

inductive FieldList where
  | nil
  | cons (f : Field) (rest : FieldList)

end

def Field.name : Field → String
  | .mk n _ _ => n

def Field.dataType : Field → DataType
  | .mk _ dt _ => dt

def Field.nullable : Field → Bool
  | .mk _ _ b => b

def FieldList.toList : FieldList → List Field
  | .nil => []
  | .cons f rest => f :: rest.toList

def FieldList.ofList : List Field → FieldList
  | [] => .nil
  | f :: rest => .cons f (FieldList.ofList rest)

/-- Arrow `DataType::is_numeric`: signed/unsigned integers, floats and
decimals. -/
def DataType.is_numeric : DataType → Bool
  | .int8 | .int16 | .int32 | .int64
  | .uint8 | .uint16 | .uint32 | .uint64
  | .float16 | .float32 | .float64
  | .decimal128 _ _ | .decimal256 _ _ => true
  | _ => false

/-- Arrow `DataType::is_temporal`: dates, times, timestamps, durations and
intervals. -/
def DataType.is_temporal : DataType → Bool
  | .date32 | .date64 | .timestamp | .time32 | .time64
  | .duration | .interval => true
  | _ => false

/-- Arrow `DataType::is_primitive` = numeric or temporal. -/
def DataType.is_primitive (dt : DataType) : Bool :=
  dt.is_numeric || dt.is_temporal

/-- The list-element rule of `DuckDbConnection::is_data_type_supported`:
the element type is a primitive, or one of Utf8/Binary/Utf8View/BinaryView/
Boolean. -/
def listElemSupported (dt : DataType) : Bool :=
  if dt.is_primitive then true
  else
    match dt with
    | .utf8 | .binary | .utf8View | .binaryView | .boolean => true
    | _ => false

mutual

/-- Embeds `DuckDbConnection::is_data_type_supported` (SchemaValidator impl):
list-family types are supported iff their element passes `listElemSupported`;
structs are supported iff the type of every member field is recursively supported;
everything else is supported. -/
def is_data_type_supported : DataType → Bool
  | .list elem => listElemSupported elem.dataType
  | .fixedSizeList elem _ => listElemSupported elem.dataType
  | .largeList elem => listElemSupported elem.dataType
  | .struct fields => fieldsSupported fields
  | _ => true

/-- Conjunction of `is_data_type_supported` over a field collection
(the `inner_fields.iter().all(...)` of the struct arm). -/
def fieldsSupported : FieldList → Bool
  | .nil => true
  | .cons (.mk _ dt _) rest => is_data_type_supported dt && fieldsSupported rest

end

/-- Embeds `DuckDbConnection::is_field_supported`: the structural rule must hold and
the DuckDB type mapper (`to_duckdb_type_id`, an external collaborator embedded
as the parameter `mapperOk`) must accept the type of the field. -/
def is_field_supported (mapperOk : DataType → Bool) (field : Field) : Bool :=
  is_data_type_supported field.dataType && mapperOk field.dataType

/-- Helper predicate used only to state claims: does the head
constructor of the type have a non-default arm in `is_data_type_supported`
(List/FixedSizeList/LargeList/Struct)? -/
def isNestedKind : DataType → Bool
  | .list _ | .fixedSizeList _ _ | .largeList _ | .struct _ => true
  | _ => false

/-! ## Error taxonomy

The adapter `Error` enum, plus the two variants of the surrounding
`dbconnection` module it returns (`UnableToGetSchema`, `UnsupportedDataType`),
flattened into one type.  Sources carried by the Rust variants are embedded as
their display strings. -/

inductive Error where
  | duckDBConnectionError (msg : String)
  | duckDBQueryError (msg : String)
  | channelError (message : String)
  | unableToAttachDatabase (path : String) (msg : String)
  | unableToGetSchema (msg : String)
  | unsupportedDataType (dataType : DataType) (fieldName : String)

/-- The snafu `display` strings of the own error variants of the adapter (used in
the terminal stream message of the bridge). -/
def Error.message : Error → String
  | .duckDBConnectionError msg =>
      "DuckDB connection failed.\n" ++ msg ++
      "\nFor details, refer to the DuckDB manual: https://duckdb.org/docs/"
  | .duckDBQueryError msg =>
      "Query execution failed.\n" ++ msg ++
      "\nFor details, refer to the DuckDB manual: https://duckdb.org/docs/"
  | .channelError message =>
      "An unexpected error occurred.\n" ++ message ++
      "\nVerify the configuration and try again."
  | .unableToAttachDatabase path msg =>
      "Unable to attach DuckDB database " ++ path ++ ".\n" ++ msg ++
      "\nEnsure the DuckDB file path is valid."
  | .unableToGetSchema msg => msg
  | .unsupportedDataType _ fieldName => "Unsupported data type in field " ++ fieldName

/-! ## Engine catalog state and the statements the adapter emits

The adapter touches the catalog state of the native connection only through four
statement shapes.  They are embedded as an AST (`Stmt`) with a `render`
function reproducing the exact SQL strings the source formats. -/

inductive Stmt where
  | attachDatabase (path aliasName : String) (ifNotExists readOnly : Bool)
  | detachDatabase (aliasName : String)
  | setSearchPathStmt (path : String)
  | resetSearchPathStmt
deriving DecidableEq

/-- The single-quote character (written by code point to keep quotes out of
the literals of this file). -/
def quoteChar : Char := Char.ofNat 39

/-- A string holding just the single-quote character. -/
def sq : String := String.singleton quoteChar

/-- The SQL text the source builds for each statement (`format!` calls in
`DuckDBAttachments::{attach, detach, set_search_path, reset_search_path}`). -/
def Stmt.render : Stmt → String
  | .attachDatabase path a ine ro =>
      "ATTACH " ++ (if ine then "IF NOT EXISTS " else "") ++ sq ++ path ++ sq ++ " AS "
        ++ a ++ (if ro then " (READ_ONLY)" else "")
  | .detachDatabase a => "DETACH " ++ a
  | .setSearchPathStmt p => "SET search_path =" ++ sq ++ p ++ sq
  | .resetSearchPathStmt => "RESET search_path"

/-- The catalog-visible state of one native connection session: which aliases
are currently attached, and whether a session search path is set (`none` is
the engine default). -/
structure EngineState where
  attached : List String
  searchPath : Option String
deriving DecidableEq

/-- A fresh native session, as produced by `Connection::try_clone` (a new
session to the same database: no auxiliary attachments, default search
path). -/
def freshSession : EngineState := { attached := [], searchPath := none }

/-- Modelled from the spec: the native DuckDB engine is an external
collaborator ("treated as an opaque engine invoked only through
prepare/execute/stream primitives"), so its execution of the four catalog
statements is modelled here.  `ATTACH IF NOT EXISTS` is idempotent by its own
wording ("attach if not already attached", spec 4.3); plain `DETACH` (the
source emits no `IF EXISTS`) fails when the alias is not currently attached;
`SET search_path` / `RESET search_path` set and clear the session search
path. -/
def execStmt : Stmt → EngineState → Except String EngineState
  | .attachDatabase _ a ine _, s =>
      if a ∈ s.attached then
        if ine then .ok s
        else .error ("Database with alias " ++ a ++ " already exists")
      else .ok { s with attached := s.attached ++ [a] }
  | .detachDatabase a, s =>
      if a ∈ s.attached then .ok { s with attached := s.attached.erase a }
      else .error ("Database " ++ a ++ " not found")
  | .setSearchPathStmt p, s => .ok { s with searchPath := some p }
  | .resetSearchPathStmt, s => .ok { s with searchPath := none }

/-! ## `DuckDBAttachments`

`attachments: HashSet<Arc<str>>` is embedded as a duplicate-free list in the
iteration order of the set; `DuckDBAttachments::new` deduplicates the input list.
The random session token (`Alphanumeric.sample_string`, external `rand`
crate) is passed in as a parameter.

Stateful operations against a connection return
`(new state, trace of executed statements, optional error)`; on error the
state reached so far and the statements already executed are kept. -/

structure DuckDBAttachments where
  attachments : List String
  search_path : String
  random_id : String

/-- Embeds `DuckDBAttachments::get_attachment_name`. -/
def get_attachment_name (random_id : String) (index : Nat) : String :=
  "attachment_" ++ random_id ++ "_" ++ toString index

/-- Embeds `DuckDBAttachments::get_search_path`: the main database id followed by one
generated alias per attachment, comma-joined. -/
def get_search_path (id : String) (random_id : String) (attachments : List String) : String :=
  String.intercalate "," (id :: (List.range attachments.length).map (get_attachment_name random_id))

/-- Embeds `DuckDBAttachments::new`: deduplicate the attachment paths (the
`HashSet` collect) and precompute the search path. -/
def DuckDBAttachments.new (id : String) (attachments : List String) (random_id : String) :
    DuckDBAttachments :=
  let atts := attachments.dedup
  { attachments := atts
    search_path := get_search_path id random_id atts
    random_id := random_id }

/-- Embeds `DuckDBAttachments::set_search_path`. -/
def DuckDBAttachments.set_search_path (a : DuckDBAttachments) (conn : EngineState) :
    EngineState × List Stmt × Option Error :=
  match execStmt (.setSearchPathStmt a.search_path) conn with
  | .ok s1 => (s1, [.setSearchPathStmt a.search_path], none)
  | .error m => (conn, [], some (.duckDBConnectionError m))

/-- Embeds `DuckDBAttachments::reset_search_path`. -/
def DuckDBAttachments.reset_search_path (_a : DuckDBAttachments) (conn : EngineState) :
    EngineState × List Stmt × Option Error :=
  match execStmt .resetSearchPathStmt conn with
  | .ok s1 => (s1, [.resetSearchPathStmt], none)
  | .error m => (conn, [], some (.duckDBConnectionError m))

/-- The `for (i, db) in self.attachments.iter().enumerate()` loop of
`DuckDBAttachments::attach`: check the file exists (fail fast with a
path-specific error), then execute the `ATTACH IF NOT EXISTS ... (READ_ONLY)`
statement. -/
def attachLoop (fileExists : String → Bool) (random_id : String) :
    List String → Nat → EngineState → EngineState × List Stmt × Option Error
  | [], _, s => (s, [], none)
  | db :: rest, i, s =>
    if fileExists db then
      match execStmt (.attachDatabase db (get_attachment_name random_id i) true true) s with
      | .ok s1 =>
        let r := attachLoop fileExists random_id rest (i + 1) s1
        (r.1, .attachDatabase db (get_attachment_name random_id i) true true :: r.2.1, r.2.2)
      | .error m => (s, [], some (.duckDBConnectionError m))
    else (s, [], some (.unableToAttachDatabase db "No such file or directory (os error 2)"))

/-- Embeds `DuckDBAttachments::attach`: run the attach loop over all attachments,
then (only if every attachment succeeded) set the search path. -/
def DuckDBAttachments.attach (a : DuckDBAttachments) (fileExists : String → Bool)
    (conn : EngineState) : EngineState × List Stmt × Option Error :=
  let r := attachLoop fileExists a.random_id a.attachments 0 conn
  match r.2.2 with
  | some e => (r.1, r.2.1, some e)
  | none =>
    let sp := a.set_search_path r.1
    (sp.1, r.2.1 ++ sp.2.1, sp.2.2)

/-- The `for (i, _) in self.attachments.iter().enumerate()` loop of
`DuckDBAttachments::detach`: execute `DETACH <alias>` for each index. -/
def detachLoop (random_id : String) :
    List String → Nat → EngineState → EngineState × List Stmt × Option Error
  | [], _, s => (s, [], none)
  | _ :: rest, i, s =>
    match execStmt (.detachDatabase (get_attachment_name random_id i)) s with
    | .ok s1 =>
      let r := detachLoop random_id rest (i + 1) s1
      (r.1, .detachDatabase (get_attachment_name random_id i) :: r.2.1, r.2.2)
    | .error m => (s, [], some (.duckDBConnectionError m))

/-- Embeds `DuckDBAttachments::detach`: run the detach loop over all attachment
indices, then (only if every detach succeeded) reset the search path. -/
def DuckDBAttachments.detach (a : DuckDBAttachments) (conn : EngineState) :
    EngineState × List Stmt × Option Error :=
  let r := detachLoop a.random_id a.attachments 0 conn
  match r.2.2 with
  | some e => (r.1, r.2.1, some e)
  | none =>
    let rp := a.reset_search_path r.1
    (rp.1, r.2.1 ++ rp.2.1, rp.2.2)

/-! ## `DuckDbConnection` passthroughs and the sync-to-async bridge -/

/-- Embeds `DuckDbConnection::attach`: passthrough if the `Option` is `Some`. -/
def DuckDbConnection.attach (fileExists : String → Bool)
    (attachments : Option DuckDBAttachments) (conn : EngineState) :
    EngineState × List Stmt × Option Error :=
  match attachments with
  | some a => a.attach fileExists conn
  | none => (conn, [], none)

/-- Embeds `DuckDbConnection::detach`: passthrough if the `Option` is `Some`. -/
def DuckDbConnection.detach (attachments : Option DuckDBAttachments)
    (conn : EngineState) : EngineState × List Stmt × Option Error :=
  match attachments with
  | some a => a.detach conn
  | none => (conn, [], none)

/-- One element of the consumer-facing record-batch stream: a batch, or a
`DataFusionError::Execution` with its message. -/
inductive StreamItem (α : Type) where
  | batch (b : α)
  | execError (msg : String)
deriving DecidableEq

/-- The outcome of `join_handle.await`: the worker completed with its result,
or the join itself failed (worker panic or cancellation). -/
inductive JoinResult (β : Type) where
  | completed (r : β)
  | joinFailed (msg : String)

/-- The `for i in result { blocking_channel_send(&batch_tx, i)?; }` loop:
`sendOk i` says whether the `i`-th blocking send succeeds (the consumer side
of the channel is still open).  Returns the batches actually delivered through
the channel and the outcome of the loop; a failed send produces the
`Error::ChannelError` that `blocking_channel_send` builds. -/
def sendAll (sendOk : Nat → Bool) : List α → Nat → List α × Except Error Unit
  | [], _ => ([], .ok ())
  | b :: rest, i =>
    if sendOk i then
      let r := sendAll sendOk rest (i + 1)
      (b :: r.1, r.2)
    else ([], .error (.channelError "channel closed"))

/-- The `spawn_blocking` worker closure of `query_arrow`: re-attach the
auxiliary catalogs on the cloned session, prepare and stream-execute the
statement (`runQuery`, the opaque execution by the engine, which either fails or
yields the batch sequence), push every batch into the channel, then detach.
Returns the batches delivered through the channel and the result of the worker. -/
def worker (fileExists : String → Bool) (attachments : Option DuckDBAttachments)
    (runQuery : EngineState → Except String (List α)) (sendOk : Nat → Bool)
    (conn : EngineState) : List α × Except Error Unit :=
  match DuckDbConnection.attach fileExists attachments conn with
  | (_, _, some e) => ([], .error e)
  | (s1, _, none) =>
    match runQuery s1 with
    | .error m => ([], .error (.duckDBQueryError m))
    | .ok batches =>
      let sent := sendAll sendOk batches 0
      match sent.2 with
      | .error e => (sent.1, .error e)
      | .ok _ =>
        match DuckDbConnection.detach attachments s1 with
        | (_, _, some e) => (batches, .error e)
        | (_, _, none) => (batches, .ok ())

/-- The `stream!` block of `query_arrow`: drain the channel, yielding each
batch in order; once the channel closes, await the join handle of the worker and
surface a worker error or a join failure as the terminal stream element. -/
def output_stream : List α → JoinResult (Except Error Unit) → List (StreamItem α)
  | b :: rest, join => .batch b :: output_stream rest join
  | [], join =>
    match join with
    | .completed (.ok _) => []
    | .completed (.error taskError) =>
        [.execError ("Failed to execute DuckDB query: " ++ taskError.message)]
    | .joinFailed joinError =>
        [.execError ("Failed to execute DuckDB query: " ++ joinError)]

/-- Embeds `DuckDbConnection::query_arrow`, sequentialized.  The opaque engine
statement execution is abstracted as `probe` (the zero-row
`WITH fetch_schema AS (..) .. LIMIT 0` schema probe, returning a schema of
type `σ`) and `runQuery` (the prepare + `stream_arrow` of the worker).  Returns the
final catalog state of the caller connection together with the result: the schema
and the full contents of the consumer-facing stream.

Steps, as in the source: attach on the connection of the caller; probe the schema;
detach; clone into a fresh session; run the worker on the clone; wrap the
drained channel plus join outcome as the output stream. -/
def query_arrow (fileExists : String → Bool)
    (probe : EngineState → Except String σ)
    (runQuery : EngineState → Except String (List α))
    (sendOk : Nat → Bool)
    (attachments : Option DuckDBAttachments)
    (conn : EngineState) :
    EngineState × Except Error (σ × List (StreamItem α)) :=
  match DuckDbConnection.attach fileExists attachments conn with
  | (s1, _, some e) => (s1, .error e)
  | (s1, _, none) =>
    match probe s1 with
    | .error m => (s1, .error (.unableToGetSchema m))
    | .ok schema =>
      match DuckDbConnection.detach attachments s1 with
      | (s2, _, some e) => (s2, .error e)
      | (s2, _, none) =>
        let w := worker fileExists attachments runQuery sendOk freshSession
        (s2, .ok (schema, output_stream w.1 (.completed w.2)))

/-- A second definition following the words of the spec, for the refinement claim
about a connection with no attachment set: the same pipeline with the attach
and detach steps removed entirely (no catalog statement is ever issued and no
connection state is touched). -/
def query_arrow_plain (probe : EngineState → Except String σ)
    (runQuery : EngineState → Except String (List α))
    (sendOk : Nat → Bool)
    (conn : EngineState) :
    EngineState × Except Error (σ × List (StreamItem α)) :=
  match probe conn with
  | .error m => (conn, .error (.unableToGetSchema m))
  | .ok schema =>
    let w :=
      match runQuery freshSession with
      | .error m => (([] : List α), Except.error (Error.duckDBQueryError m))
      | .ok batches =>
        let sent := sendAll sendOk batches 0
        match sent.2 with
        | .error e => (sent.1, .error e)
        | .ok _ => (batches, .ok ())
    (conn, .ok (schema, output_stream w.1 (.completed w.2)))

/-! ## Schema compatibility reconciler -/

/-- Modelled from the spec: `UnsupportedTypeAction` is declared at the crate
root, which is not under `src/`; the policy set of the spec is
{fail, warn-and-drop, silently-drop}, named `Error`/`Warn`/`Ignore` at the
use sites in the source. -/
inductive UnsupportedTypeAction where
  | error
  | warn
  | ignore
deriving DecidableEq

/-- Modelled from the spec: `SchemaValidator::handle_unsupported_schema` lives
in `crate::util::schema`, which is not under `src/`.  Per spec 4.2: under the
fail policy, if any field is unsupported return a typed error naming the first
offending field and its type, without constructing a schema; under
warn-and-drop and silently-drop, remove the offending fields and return the
reduced schema with the original ordering of the remaining fields intact.
The type mapper of the engine (`to_duckdb_type_id`) is the parameter `mapperOk`. -/
def handle_unsupported_schema (mapperOk : DataType → Bool) (schema : List Field)
    (action : UnsupportedTypeAction) : Except Error (List Field) :=
  match action with
  | .error =>
    match schema.find? (fun f => !(is_field_supported mapperOk f)) with
    | some f => .error (.unsupportedDataType f.dataType f.name)
    | none => .ok schema
  | .warn => .ok (schema.filter (is_field_supported mapperOk))
  | .ignore => .ok (schema.filter (is_field_supported mapperOk))

/-! ## Table-reference classifier -/

/-- Embeds `datafusion::sql::TableReference`: bare, schema-qualified (`Partial`) or
catalog-qualified (`Full`). -/
inductive TableReference where
  | bare (table : String)
  | schemaTable (schema table : String)
  | catalogSchemaTable (catalog schema table : String)

/-- The shapes of the `sqlparser` `TableFactor` that matter here: a `Table`
factor carrying an optional argument list, or any other factor kind. -/
inductive TableFactor where
  | table (args : Option (List String))
  | derived
  | nestedJoin

/-- Embeds `is_table_function`, with the external `sqlparser` tokenizer and
table-factor parser abstracted as parameters: qualified references are never
function calls; for a bare reference, tokenize (failure ⇒ `false`), parse a
single table factor (failure ⇒ `false`), and classify as a function call iff
the factor is a `Table` factor whose argument list is present. -/
def is_table_function {Tokens : Type}
    (tokenize : String → Option Tokens)
    (parse_factor : Tokens → Option TableFactor)
    (table_reference : TableReference) : Bool :=
  match table_reference with
  | .catalogSchemaTable .. => false
  | .schemaTable .. => false
  | .bare table =>
    match tokenize table with
    | none => false
    | some tokens =>
      match parse_factor tokens with
      | none => false
      | some tf =>
        match tf with
        | .table args => args.isSome
        | _ => false

/-! A concrete instantiation of the tokenizer/parser pair, large enough to
evaluate the classifier on the example inputs of the source test
`test_is_table_function`. -/

inductive Token where
  | ident (s : String)
  | stringLit (s : String)
  | lparen
  | rparen
  | comma
deriving DecidableEq

def isIdentChar (c : Char) : Bool := c.isAlphanum || c = '_'

/-- Modelled from the spec: the DuckDB-dialect tokenizer of the external
`sqlparser` crate, restricted to what a table factor can contain here:
identifiers, single-quoted string literals, parentheses, commas and spaces;
any other character (or an unterminated literal) is a tokenizer error.  Fueled
by the remaining input length; each step consumes at least one character, so
`length + 1` fuel never runs out. -/
def tokenizeAux (sendFuel : Nat) (chars : List Char) : Option (List Token) :=
  match sendFuel, chars with
  | 0, _ => none
  | _, [] => some []
  | fuel + 1, c :: cs =>
    if c = ' ' then tokenizeAux fuel cs
    else if c = '(' then (tokenizeAux fuel cs).map (fun ts => .lparen :: ts)
    else if c = ')' then (tokenizeAux fuel cs).map (fun ts => .rparen :: ts)
    else if c = ',' then (tokenizeAux fuel cs).map (fun ts => .comma :: ts)
    else if c = quoteChar then
      let lit := cs.takeWhile (fun d => d ≠ quoteChar)
      let rest := cs.dropWhile (fun d => d ≠ quoteChar)
      match rest with
      | [] => none
      | _ :: rest1 => (tokenizeAux fuel rest1).map (fun ts => .stringLit (String.mk lit) :: ts)
    else if isIdentChar c then
      let word := (c :: cs).takeWhile isIdentChar
      let rest := (c :: cs).dropWhile isIdentChar
      (tokenizeAux fuel rest).map (fun ts => .ident (String.mk word) :: ts)
    else none

def duck_tokenize (s : String) : Option (List Token) :=
  tokenizeAux (s.toList.length + 1) s.toList

/-- Arguments inside `(...)`: a non-empty comma-separated list of identifiers
or string literals, closed by `)`. -/
def parseArgList : List Token → Option (List String)
  | .ident s :: .comma :: rest => (parseArgList rest).map (fun as => s :: as)
  | .stringLit s :: .comma :: rest => (parseArgList rest).map (fun as => s :: as)
  | .ident s :: .rparen :: _ => some [s]
  | .stringLit s :: .rparen :: _ => some [s]
  | _ => none

/-- Modelled from the spec: `Parser::parse_table_factor` of the external
`sqlparser` crate, restricted to the shapes at play: an identifier optionally
followed by a parenthesized, possibly empty argument list yields a `Table`
factor whose `args` records whether the parentheses were present; anything
else is a parse error. -/
def parse_table_factor : List Token → Option TableFactor
  | .ident _ :: .lparen :: .rparen :: _ => some (.table (some []))
  | .ident _ :: .lparen :: rest => (parseArgList rest).map (fun as => .table (some as))
  | .ident _ :: _ => some (.table none)
  | _ => none

/-! ## Specification-side helpers and concrete fixtures -/

/-- The generated aliases for an attachment list starting at a given index,
used to state what `attach`/`detach` do. -/
def aliasNames (random_id : String) : List String → Nat → List String
  | [], _ => []
  | _ :: rest, i => get_attachment_name random_id i :: aliasNames random_id rest (i + 1)

/-- The statements the attach loop is expected to emit. -/
def attachTrace (random_id : String) : List String → Nat → List Stmt
  | [], _ => []
  | db :: rest, i =>
      .attachDatabase db (get_attachment_name random_id i) true true
        :: attachTrace random_id rest (i + 1)

/-- The statements the detach loop is expected to emit. -/
def detachTrace (random_id : String) : List String → Nat → List Stmt
  | [], _ => []
  | _ :: rest, i => .detachDatabase (get_attachment_name random_id i) :: detachTrace random_id rest (i + 1)

/-- The engine-state effect of the attach loop when every file exists, used to
state what `attach` does: each alias is appended unless already attached. -/
def attachState (random_id : String) : List String → Nat → EngineState → EngineState
  | [], _, s => s
  | _ :: rest, i, s =>
      attachState random_id rest (i + 1)
        (if get_attachment_name random_id i ∈ s.attached then s
         else { s with attached := s.attached ++ [get_attachment_name random_id i] })

/-- The all-supported schema of `test_schema_rebuild_with_supported_fields`. -/
def supportedTestSchema : List Field :=
  [.mk "string" .utf8 false, .mk "int" .int64 false, .mk "float" .float64 false,
   .mk "bool" .boolean false, .mk "binary" .binary false]

/-- A list-of-struct field (unsupported), as built in the source tests. -/
def listStructField (nm : String) : Field :=
  .mk nm (.list (.mk "struct" (.struct (.cons (.mk "field" .int64 false) .nil)) false)) false

/-- The mixed schema of `test_schema_rebuild_with_unsupported_fields`. -/
def mixedTestSchema : List Field :=
  supportedTestSchema ++
    [listStructField "list_struct", .mk "another_bool" .boolean false,
     listStructField "another_list_struct", .mk "another_float" .float32 false]

/-- The expected reduced schema of `test_schema_rebuild_with_unsupported_fields`. -/
def rebuiltTestSchema : List Field :=
  supportedTestSchema ++ [.mk "another_bool" .boolean false, .mk "another_float" .float32 false]

/-- A one-attachment fixture over an existing file, for the failure-path
analysis of `query_arrow`. -/
def probeFailAttachments : DuckDBAttachments := DuckDBAttachments.new "main" ["db1.duckdb"] "r1"

/-- The `query_arrow` pipeline run with the fixture attachments, all files
present, and a schema probe that fails: the failing input for the
bracket-discipline analysis. -/
def probeFailRun : EngineState × Except Error (Unit × List (StreamItem Unit)) :=
  query_arrow (fun _ => true)
    (fun _ => (Except.error "Parser Error" : Except String Unit))
    (fun _ => (Except.ok [] : Except String (List Unit)))
    (fun _ => true) (some probeFailAttachments) freshSession

end DuckDBConn


/-! # Theorems -/

namespace DuckDBConn

/-! ## Claim C4: recursive type supportability -/

theorem listElemSupported_iff (dt : DataType) :
    listElemSupported dt = true ↔
      (dt.is_primitive = true ∨ dt = .utf8 ∨ dt = .binary ∨ dt = .utf8View ∨
        dt = .binaryView ∨ dt = .boolean) := by
  cases dt <;>
    simp [listElemSupported, DataType.is_primitive, DataType.is_numeric, DataType.is_temporal]

theorem fieldsSupported_iff : ∀ (fl : FieldList),
    fieldsSupported fl = true ↔ ∀ f ∈ fl.toList, is_data_type_supported f.dataType = true
  | .nil => by simp [fieldsSupported, FieldList.toList]
  | .cons (.mk n dt nb) rest => by
      simp [fieldsSupported, FieldList.toList, Bool.and_eq_true, fieldsSupported_iff rest,
        Field.dataType]

/-- Claim C4: a List/FixedSizeList/LargeList type is supported iff its element
type is a primitive or one of Utf8/Binary/Utf8View/BinaryView/Boolean (so
list-of-struct and list-of-list are unsupported, as none of those is a
primitive or in the set); a Struct type is supported iff the type of every
member field is recursively supported; every type whose head constructor is
not List/FixedSizeList/LargeList/Struct is supported by the structural rule;
and a field as a whole is accepted iff the structural rule holds and the
DuckDB type mapper (`to_duckdb_type_id`, the parameter `mapperOk`) also
accepts its type. -/
theorem claim_c4 :
    (∀ (f : Field) (k : Int),
      (is_data_type_supported (.list f) = true ↔
        (f.dataType.is_primitive = true ∨ f.dataType = .utf8 ∨ f.dataType = .binary ∨
          f.dataType = .utf8View ∨ f.dataType = .binaryView ∨ f.dataType = .boolean)) ∧
      (is_data_type_supported (.fixedSizeList f k) = true ↔
        (f.dataType.is_primitive = true ∨ f.dataType = .utf8 ∨ f.dataType = .binary ∨
          f.dataType = .utf8View ∨ f.dataType = .binaryView ∨ f.dataType = .boolean)) ∧
      (is_data_type_supported (.largeList f) = true ↔
        (f.dataType.is_primitive = true ∨ f.dataType = .utf8 ∨ f.dataType = .binary ∨
          f.dataType = .utf8View ∨ f.dataType = .binaryView ∨ f.dataType = .boolean))) ∧
    (∀ fl : FieldList, is_data_type_supported (.struct fl) = true ↔
      ∀ f ∈ fl.toList, is_data_type_supported f.dataType = true) ∧
    (∀ dt : DataType, isNestedKind dt = false → is_data_type_supported dt = true) ∧
    (∀ (mapperOk : DataType → Bool) (f : Field),
      is_field_supported mapperOk f = true ↔
        (is_data_type_supported f.dataType = true ∧ mapperOk f.dataType = true)) := by
  refine ⟨fun f k => ⟨?_, ?_, ?_⟩, fun fl => ?_, fun dt h => ?_, fun m f => ?_⟩
  · simpa [is_data_type_supported] using listElemSupported_iff f.dataType
  · simpa [is_data_type_supported] using listElemSupported_iff f.dataType
  · simpa [is_data_type_supported] using listElemSupported_iff f.dataType
  · simpa [is_data_type_supported] using fieldsSupported_iff fl
  · cases dt <;> simp [isNestedKind] at h ⊢ <;> rfl
  · simp [is_field_supported, Bool.and_eq_true]

theorem claim_c4_witness :
    isNestedKind DataType.utf8 = false ∧ is_data_type_supported DataType.utf8 = true :=
  ⟨by decide, claim_c4.2.2.1 DataType.utf8 (by decide)⟩

/-! ## Claims C5, C6: schema reconciliation -/

theorem find?_first {α : Type} (p : α → Bool) :
    ∀ (l : List α) (a : α), l.find? p = some a →
      p a = true ∧ ∃ pre post, l = pre ++ a :: post ∧ ∀ x ∈ pre, p x = false
  | [], a => by simp
  | x :: xs, a => by
    intro h
    by_cases hx : p x = true
    · simp [List.find?, hx] at h
      subst h
      exact ⟨hx, [], xs, rfl, by simp⟩
    · have hx' : p x = false := by simpa using hx
      simp only [List.find?, hx'] at h
      obtain ⟨hpa, pre, post, heq, hpre⟩ := find?_first p xs a h
      refine ⟨hpa, x :: pre, post, by rw [heq, List.cons_append], ?_⟩
      intro y hy
      rcases List.mem_cons.mp hy with hy | hy
      · subst hy; exact hx'
      · exact hpre y hy

theorem find?_some_of_exists {α : Type} (p : α → Bool) :
    ∀ (l : List α), (∃ x ∈ l, p x = true) → ∃ a, l.find? p = some a
  | [], h => by simp at h
  | x :: xs, h => by
    by_cases hx : p x = true
    · exact ⟨x, by simp [List.find?, hx]⟩
    · have hx' : p x = false := by simpa using hx
      obtain ⟨y, hy, hpy⟩ := h
      rcases List.mem_cons.mp hy with rfl | hy
      · exact absurd hpy hx
      · obtain ⟨a, ha⟩ := find?_some_of_exists p xs ⟨y, hy, hpy⟩
        exact ⟨a, by simp [List.find?, hx', ha]⟩

theorem find?_none_of_all {α : Type} (p : α → Bool) :
    ∀ (l : List α), (∀ x ∈ l, p x = false) → l.find? p = none
  | [], _ => rfl
  | x :: xs, h => by
    have hx := h x (by simp)
    simp only [List.find?, hx]
    exact find?_none_of_all p xs (fun y hy => h y (List.mem_cons_of_mem _ hy))

theorem filter_all_eq_self {α : Type} (p : α → Bool) :
    ∀ (l : List α), (∀ x ∈ l, p x = true) → l.filter p = l
  | [], _ => rfl
  | x :: xs, h => by
    simp only [List.filter, h x (by simp)]
    rw [filter_all_eq_self p xs (fun y hy => h y (List.mem_cons_of_mem _ hy))]

/-- Claim C6: for a schema in which every field is supported, reconciliation
returns the input schema unchanged (same fields, same order) under every
policy (fail, warn-and-drop, silently-drop). -/
theorem claim_c6 (mapperOk : DataType → Bool) (schema : List Field)
    (h : ∀ f ∈ schema, is_field_supported mapperOk f = true) :
    ∀ action, handle_unsupported_schema mapperOk schema action = .ok schema := by
  intro action
  cases action with
  | error =>
    have hn : schema.find? (fun f => !(is_field_supported mapperOk f)) = none :=
      find?_none_of_all _ _ (fun f hf => by simp [h f hf])
    simp [handle_unsupported_schema, hn]
  | warn => simp [handle_unsupported_schema, filter_all_eq_self _ _ h]
  | ignore => simp [handle_unsupported_schema, filter_all_eq_self _ _ h]

theorem claim_c6_witness :
    (∀ f ∈ supportedTestSchema, is_field_supported (fun _ => true) f = true) ∧
    handle_unsupported_schema (fun _ => true) supportedTestSchema .error = .ok supportedTestSchema :=
  ⟨by decide, claim_c6 _ _ (by decide) .error⟩

/-- Claim C5: for a schema containing at least one unsupported field, the fail
policy returns a typed error naming the first offending field (the schema
splits as pre ++ f :: post with every field of pre supported and f
unsupported) and its type; warn-and-drop and silently-drop both return the
same reduced schema, a sublist of the input (hence original relative order is
preserved) whose members are exactly the supported fields. -/
theorem claim_c5 (mapperOk : DataType → Bool) (schema : List Field)
    (h : ∃ f ∈ schema, is_field_supported mapperOk f = false) :
    (∃ pre f post, schema = pre ++ f :: post ∧
        (∀ g ∈ pre, is_field_supported mapperOk g = true) ∧
        is_field_supported mapperOk f = false ∧
        handle_unsupported_schema mapperOk schema .error =
          .error (.unsupportedDataType f.dataType f.name)) ∧
    (∃ kept, handle_unsupported_schema mapperOk schema .warn = .ok kept ∧
        handle_unsupported_schema mapperOk schema .ignore = .ok kept ∧
        kept.Sublist schema ∧
        ∀ f, f ∈ kept ↔ (f ∈ schema ∧ is_field_supported mapperOk f = true)) := by
  constructor
  · obtain ⟨f0, hf0⟩ := find?_some_of_exists (fun f => !(is_field_supported mapperOk f)) schema
      (by obtain ⟨f, hf, hfs⟩ := h; exact ⟨f, hf, by simp [hfs]⟩)
    obtain ⟨hp, pre, post, heq, hpre⟩ := find?_first _ schema f0 hf0
    refine ⟨pre, f0, post, heq, ?_, by simpa using hp, ?_⟩
    · intro g hg
      have := hpre g hg
      simpa using this
    · simp [handle_unsupported_schema, hf0]
  · refine ⟨schema.filter (is_field_supported mapperOk), rfl, rfl, List.filter_sublist _, ?_⟩
    intro f
    simp [List.mem_filter]

theorem claim_c5_witness :
    (∃ f ∈ mixedTestSchema, is_field_supported (fun _ => true) f = false) ∧
    ((∃ pre f post, mixedTestSchema = pre ++ f :: post ∧
        (∀ g ∈ pre, is_field_supported (fun _ => true) g = true) ∧
        is_field_supported (fun _ => true) f = false ∧
        handle_unsupported_schema (fun _ => true) mixedTestSchema .error =
          .error (.unsupportedDataType f.dataType f.name)) ∧
      (∃ kept, handle_unsupported_schema (fun _ => true) mixedTestSchema .warn = .ok kept ∧
        handle_unsupported_schema (fun _ => true) mixedTestSchema .ignore = .ok kept ∧
        kept.Sublist mixedTestSchema ∧
        ∀ f, f ∈ kept ↔ (f ∈ mixedTestSchema ∧ is_field_supported (fun _ => true) f = true))) ∧
    handle_unsupported_schema (fun _ => true) mixedTestSchema .warn = .ok rebuiltTestSchema ∧
    handle_unsupported_schema (fun _ => true) mixedTestSchema .error =
      .error (.unsupportedDataType (listStructField "list_struct").dataType "list_struct") :=
  ⟨by decide, claim_c5 _ _ (by decide), by rfl, by rfl⟩

/-! ## Claim C3: table-reference classification -/

/-- Claim C3: `is_table_function` returns false for every schema-qualified or
catalog-qualified reference, for any tokenizer and parser; for a bare
reference it returns true iff tokenizing succeeds and parsing a single table
factor succeeds with a `Table` factor carrying a (possibly empty) argument
list, and any tokenize or parse failure yields false; the concrete examples
of the source test evaluate as expected on the modelled DuckDB tokenizer and
table-factor parser. -/
theorem claim_c3 :
    (∀ (Tokens : Type) (tok : String → Option Tokens) (par : Tokens → Option TableFactor)
        (c s t : String),
      is_table_function tok par (.catalogSchemaTable c s t) = false ∧
      is_table_function tok par (.schemaTable s t) = false) ∧
    (∀ (Tokens : Type) (tok : String → Option Tokens) (par : Tokens → Option TableFactor)
        (t : String),
      is_table_function tok par (.bare t) = true ↔
        ∃ toks args, tok t = some toks ∧ par toks = some (.table (some args))) ∧
    (is_table_function duck_tokenize parse_table_factor (.bare "table_name") = false ∧
     is_table_function duck_tokenize parse_table_factor (.bare "table_name()") = true ∧
     is_table_function duck_tokenize parse_table_factor (.bare "table_name(arg1, arg2)") = true ∧
     is_table_function duck_tokenize parse_table_factor (.bare "read_parquet") = false ∧
     is_table_function duck_tokenize parse_table_factor (.bare "read_parquet()") = true ∧
     is_table_function duck_tokenize parse_table_factor
       (.bare ("read_parquet(" ++ sq ++ "my_parquet_file.parquet" ++ sq ++ ")")) = true ∧
     is_table_function duck_tokenize parse_table_factor
       (.bare ("read_csv_auto(" ++ sq ++ "my_csv_file.csv" ++ sq ++ ")")) = true) := by
  refine ⟨fun Tokens tok par c s t => ⟨rfl, rfl⟩, fun Tokens tok par t => ?_,
    by decide, by decide, by decide, by decide, by decide, by decide, by decide⟩
  cases htok : tok t with
  | none => simp [is_table_function, htok]
  | some toks =>
    cases hpar : par toks with
    | none => simp [is_table_function, htok, hpar]
    | some tf =>
      cases tf with
      | table args =>
        cases args with
        | none => simp [is_table_function, htok, hpar]
        | some a =>
          simp only [is_table_function, htok, hpar, Option.isSome_some]
          constructor
          · intro _
            exact ⟨toks, a, rfl, hpar⟩
          · intro _
            trivial
      | derived => simp [is_table_function, htok, hpar]
      | nestedJoin => simp [is_table_function, htok, hpar]

theorem claim_c3_witness :
    is_table_function duck_tokenize parse_table_factor
      (.catalogSchemaTable "cat" "sch" "tbl") = false :=
  (claim_c3.1 (List Token) duck_tokenize parse_table_factor "cat" "sch" "tbl").1

/-! ## Claim C9: stream delivery order and terminal errors -/

theorem output_stream_append {α : Type} (delivered : List α)
    (join : JoinResult (Except Error Unit)) :
    output_stream delivered join = delivered.map StreamItem.batch ++ output_stream [] join := by
  induction delivered with
  | nil => simp
  | cons b rest ih => simp [output_stream, ih]

/-- Claim C9: the consumer-facing stream yields every batch delivered through
the channel, in order, before any error (the first `length` items are exactly
the delivered batches); if the worker completed with an execution/channel
error, or the join failed (panic or cancellation), that failure is yielded as
the single terminal error element after the delivered batches; if the worker
succeeded the stream is exactly the batches. -/
theorem claim_c9 {α : Type} (delivered : List α) (join : JoinResult (Except Error Unit)) :
    ((output_stream delivered join).take delivered.length = delivered.map StreamItem.batch) ∧
    (∀ e : Error, join = .completed (.error e) →
      output_stream delivered join =
        delivered.map StreamItem.batch ++
          [.execError ("Failed to execute DuckDB query: " ++ e.message)]) ∧
    (∀ m : String, join = .joinFailed m →
      output_stream delivered join =
        delivered.map StreamItem.batch ++
          [.execError ("Failed to execute DuckDB query: " ++ m)]) ∧
    (join = .completed (.ok ()) → output_stream delivered join = delivered.map StreamItem.batch) := by
  refine ⟨?_, ?_, ?_, ?_⟩
  · rw [output_stream_append, List.take_append_eq_append_take]
    simp
  · rintro e rfl
    rw [output_stream_append]
    rfl
  · rintro m rfl
    rw [output_stream_append]
    rfl
  · rintro rfl
    rw [output_stream_append]
    simp [output_stream]

theorem claim_c9_witness :
    output_stream [1, 2] (JoinResult.completed (Except.error (Error.channelError "channel closed"))) =
      [1, 2].map StreamItem.batch ++
        [.execError ("Failed to execute DuckDB query: " ++
          (Error.channelError "channel closed").message)] :=
  (claim_c9 [1, 2] _).2.1 _ rfl

/-! ## Claim C10: no attachment set means no catalog effects -/

/-- Claim C10: with no attachment set configured (`attachments = none`, the
default of `SyncDbConnection::new`), the attach and detach passthroughs are
no-ops (state unchanged, no statement issued, no error) on any connection —
original or clone — and the whole `query_arrow` pipeline equals the pipeline
with the attachment steps removed. -/
theorem claim_c10 {σ α : Type} (fe : String → Bool) (probe : EngineState → Except String σ)
    (runQuery : EngineState → Except String (List α)) (sendOk : Nat → Bool)
    (conn : EngineState) :
    DuckDbConnection.attach fe none conn = (conn, [], none) ∧
    DuckDbConnection.detach none conn = (conn, [], none) ∧
    worker fe none runQuery sendOk freshSession =
      (match runQuery freshSession with
       | .error m => ([], .error (.duckDBQueryError m))
       | .ok batches =>
         let sent := sendAll sendOk batches 0
         match sent.2 with
         | .error e => (sent.1, .error e)
         | .ok _ => (batches, .ok ())) ∧
    query_arrow fe probe runQuery sendOk none conn = query_arrow_plain probe runQuery sendOk conn := by
  refine ⟨rfl, rfl, rfl, rfl⟩

theorem claim_c10_witness :
    query_arrow (fun _ => true) (fun _ => (Except.ok () : Except String Unit))
        (fun _ => (Except.ok [] : Except String (List Unit))) (fun _ => true) none freshSession =
      query_arrow_plain (fun _ => (Except.ok () : Except String Unit))
        (fun _ => (Except.ok [] : Except String (List Unit))) (fun _ => true) freshSession :=
  (claim_c10 (fun _ => true) _ _ (fun _ => true) freshSession).2.2.2

end DuckDBConn

namespace DuckDBConn

/-! ## Attachment manager lemmas (claims C1, C2, C8) -/

theorem execStmt_attach (p a : String) (ro : Bool) (s : EngineState) :
    execStmt (.attachDatabase p a true ro) s =
      .ok (if a ∈ s.attached then s else { s with attached := s.attached ++ [a] }) := by
  by_cases h : a ∈ s.attached <;> simp [execStmt, h]

theorem attachLoop_ok (fe : String → Bool) (rid : String) :
    ∀ (l : List String) (i : Nat) (s : EngineState), (∀ db ∈ l, fe db = true) →
      attachLoop fe rid l i s = (attachState rid l i s, attachTrace rid l i, none)
  | [], _, _, _ => rfl
  | db :: rest, i, s, h => by
    have hdb : fe db = true := h db (by simp)
    simp only [attachLoop, hdb, if_true, execStmt_attach,
      attachLoop_ok fe rid rest (i + 1) _ (fun x hx => h x (List.mem_cons_of_mem _ hx))]
    rfl

theorem attachState_searchPath (rid : String) :
    ∀ (l : List String) (i : Nat) (s : EngineState),
      (attachState rid l i s).searchPath = s.searchPath
  | [], _, _ => rfl
  | _ :: rest, i, s => by
    simp only [attachState]
    rw [attachState_searchPath rid rest (i + 1) _]
    split <;> rfl

theorem attachState_mono (rid : String) :
    ∀ (l : List String) (i : Nat) (s : EngineState) (x : String),
      x ∈ s.attached → x ∈ (attachState rid l i s).attached
  | [], _, _, _, h => h
  | _ :: rest, i, s, x, h => by
    simp only [attachState]
    apply attachState_mono rid rest (i + 1) _ x
    split
    · exact h
    · exact List.mem_append_left _ h

theorem attachState_names_mem (rid : String) :
    ∀ (l : List String) (i : Nat) (s : EngineState) (j : Nat), j < l.length →
      get_attachment_name rid (i + j) ∈ (attachState rid l i s).attached
  | [], _, _, j, h => absurd h (by simp)
  | _ :: rest, i, s, 0, _ => by
    simp only [attachState, Nat.add_zero]
    apply attachState_mono rid rest (i + 1)
    split
    · next hmem => exact hmem
    · exact List.mem_append_right _ (by simp)
  | _ :: rest, i, s, j + 1, h => by
    simp only [attachState]
    rw [show i + (j + 1) = (i + 1) + j by omega]
    exact attachState_names_mem rid rest (i + 1) _ j (by simpa using h)

theorem attachState_noop (rid : String) :
    ∀ (l : List String) (i : Nat) (s : EngineState),
      (∀ j, j < l.length → get_attachment_name rid (i + j) ∈ s.attached) →
      attachState rid l i s = s
  | [], _, _, _ => rfl
  | _ :: rest, i, s, h => by
    have h0 : get_attachment_name rid i ∈ s.attached := by simpa using h 0 (by simp)
    simp only [attachState, if_pos h0]
    refine attachState_noop rid rest (i + 1) s (fun j hj => ?_)
    have := h (j + 1) (by simpa using hj)
    rwa [show i + (j + 1) = (i + 1) + j by omega] at this

theorem aliasNames_mem (rid : String) :
    ∀ (l : List String) (i : Nat) (j : Nat), j < l.length →
      get_attachment_name rid (i + j) ∈ aliasNames rid l i
  | [], _, j, h => absurd h (by simp)
  | _ :: rest, i, 0, _ => by simp [aliasNames]
  | _ :: rest, i, j + 1, h => by
    simp only [aliasNames, List.mem_cons]
    right
    rw [show i + (j + 1) = (i + 1) + j by omega]
    exact aliasNames_mem rid rest (i + 1) j (by simpa using h)

theorem attachState_fresh (rid : String) :
    ∀ (l : List String) (i : Nat) (s : EngineState), (aliasNames rid l i).Nodup →
      (∀ j, j < l.length → get_attachment_name rid (i + j) ∉ s.attached) →
      (attachState rid l i s).attached = s.attached ++ aliasNames rid l i
  | [], _, s, _, _ => by simp [attachState, aliasNames]
  | _ :: rest, i, s, hnd, habs => by
    have h0 : get_attachment_name rid i ∉ s.attached := by simpa using habs 0 (by simp)
    simp only [attachState, if_neg h0]
    rw [attachState_fresh rid rest (i + 1) _ (List.nodup_cons.mp hnd).2 ?_]
    · simp [aliasNames]
    · intro j hj hmem
      rcases List.mem_append.mp hmem with hmem | hmem
      · refine habs (j + 1) (by simpa using hj) ?_
        rwa [show i + (j + 1) = (i + 1) + j by omega]
      · have h1 : get_attachment_name rid ((i + 1) + j) ∈ aliasNames rid rest (i + 1) :=
          aliasNames_mem rid rest (i + 1) j hj
        have h2 : get_attachment_name rid i ∉ aliasNames rid rest (i + 1) :=
          (List.nodup_cons.mp hnd).1
        simp only [List.mem_singleton] at hmem
        rw [hmem] at h1
        exact h2 h1

theorem execStmt_detach_head (a : String) (rest : List String) (sp : Option String) :
    execStmt (.detachDatabase a) ⟨a :: rest, sp⟩ = .ok ⟨rest, sp⟩ := by
  simp [execStmt, List.erase_cons_head]

theorem detachLoop_run (rid : String) :
    ∀ (l : List String) (i : Nat) (sp : Option String),
      detachLoop rid l i ⟨aliasNames rid l i, sp⟩ = (⟨[], sp⟩, detachTrace rid l i, none)
  | [], _, _ => rfl
  | _ :: rest, i, sp => by
    simp only [detachLoop, aliasNames, execStmt_detach_head, detachTrace,
      detachLoop_run rid rest (i + 1) sp]

theorem DuckDBAttachments_attach_ok (a : DuckDBAttachments) (fe : String → Bool)
    (conn : EngineState) (h : ∀ db ∈ a.attachments, fe db = true) :
    a.attach fe conn =
      (⟨(attachState a.random_id a.attachments 0 conn).attached, some a.search_path⟩,
       attachTrace a.random_id a.attachments 0 ++ [.setSearchPathStmt a.search_path], none) := by
  unfold DuckDBAttachments.attach
  rw [attachLoop_ok fe a.random_id a.attachments 0 conn h]
  simp [DuckDBAttachments.set_search_path, execStmt]

theorem attachLoop_fail (fe : String → Bool) (rid : String) :
    ∀ (pre : List String) (db : String) (post : List String) (i : Nat) (s : EngineState),
      (∀ p ∈ pre, fe p = true) → fe db = false →
      attachLoop fe rid (pre ++ db :: post) i s =
        (attachState rid pre i s, attachTrace rid pre i,
          some (.unableToAttachDatabase db "No such file or directory (os error 2)"))
  | [], db, post, i, s, _, hdb => by
    simp [attachLoop, hdb, attachState, attachTrace]
  | p :: pre, db, post, i, s, hpre, hdb => by
    have hp : fe p = true := hpre p (by simp)
    simp only [List.cons_append, attachLoop, hp, if_true, execStmt_attach]
    simp only [List.append_eq]
    rw [attachLoop_fail fe rid pre db post (i + 1) _
      (fun x hx => hpre x (List.mem_cons_of_mem _ hx)) hdb]
    rfl

theorem attachTrace_mem (rid : String) :
    ∀ (l : List String) (i : Nat) (st : Stmt), st ∈ attachTrace rid l i →
      ∃ db j, st = .attachDatabase db (get_attachment_name rid j) true true
  | [], _, st, h => absurd h (by simp [attachTrace])
  | db :: rest, i, st, h => by
    simp only [attachTrace, List.mem_cons] at h
    rcases h with rfl | h
    · exact ⟨db, i, rfl⟩
    · exact attachTrace_mem rid rest (i + 1) st h

/-! ## Claim C8: attach behavior -/

/-- Claim C8: `DuckDBAttachments::attach` verifies each file in iteration
order and fails fast with an error carrying the first missing path (issuing
only the statements of the earlier attachments and never setting the search
path); when every file exists, it executes one ATTACH statement per unique
attachment — always of the shape `ATTACH IF NOT EXISTS .. AS
attachment_<token>_<index>` with the read-only flag, whose rendered SQL is as
in the source — and only after all attachments succeed sets the search path
to the precomputed value (the SET statement is last in the trace and the
final state carries the precomputed search path). -/
theorem claim_c8 (a : DuckDBAttachments) (fe : String → Bool) (conn : EngineState) :
    ((∀ db ∈ a.attachments, fe db = true) →
      a.attach fe conn =
        (⟨(attachState a.random_id a.attachments 0 conn).attached, some a.search_path⟩,
         attachTrace a.random_id a.attachments 0 ++ [.setSearchPathStmt a.search_path], none)) ∧
    (∀ pre db post, a.attachments = pre ++ db :: post →
      (∀ p ∈ pre, fe p = true) → fe db = false →
      a.attach fe conn =
        (attachState a.random_id pre 0 conn, attachTrace a.random_id pre 0,
          some (.unableToAttachDatabase db "No such file or directory (os error 2)"))) ∧
    (∀ st ∈ attachTrace a.random_id a.attachments 0,
      ∃ db j, st = .attachDatabase db (get_attachment_name a.random_id j) true true) ∧
    (∀ (db : String) (j : Nat),
      get_attachment_name a.random_id j = "attachment_" ++ a.random_id ++ "_" ++ toString j ∧
      (Stmt.attachDatabase db (get_attachment_name a.random_id j) true true).render =
        "ATTACH " ++ "IF NOT EXISTS " ++ sq ++ db ++ sq ++ " AS " ++
          get_attachment_name a.random_id j ++ " (READ_ONLY)") := by
  refine ⟨DuckDBAttachments_attach_ok a fe conn, ?_, attachTrace_mem a.random_id a.attachments 0, ?_⟩
  · intro pre db post heq hpre hdb
    unfold DuckDBAttachments.attach
    rw [heq, attachLoop_fail fe a.random_id pre db post 0 conn hpre hdb]
  · intro db j
    exact ⟨rfl, rfl⟩

theorem claim_c8_witness :
    (DuckDBAttachments.new "main" ["db1.duckdb"] "r1").attach (fun _ => true) freshSession =
      (⟨["attachment_r1_0"], some "main,attachment_r1_0"⟩,
       [.attachDatabase "db1.duckdb" "attachment_r1_0" true true,
        .setSearchPathStmt "main,attachment_r1_0"], none) ∧
    (DuckDBAttachments.new "main" ["db1.duckdb", "db2.duckdb"] "r1").attach
        (fun db => db == "db1.duckdb") freshSession =
      (⟨["attachment_r1_0"], none⟩,
       [.attachDatabase "db1.duckdb" "attachment_r1_0" true true],
       some (.unableToAttachDatabase "db2.duckdb" "No such file or directory (os error 2)")) := by
  constructor
  · exact ((claim_c8 _ _ _).1 (by decide)).trans (by rfl)
  · exact ((claim_c8 _ _ _).2.1 ["db1.duckdb"] "db2.duckdb" [] (by rfl) (by decide)
      (by decide)).trans (by rfl)

end DuckDBConn

namespace DuckDBConn

/-! ## Claim C2: idempotence and reentrancy of attach/detach -/

/-- Claim C2, counterexample: the claim states that calling detach on a
connection where the aliases are already detached succeeds; but on a fresh
session (no aliases attached) detach fails, because the source issues plain
`DETACH` without `IF EXISTS` and the engine rejects detaching an alias that
is not attached. -/
theorem claim_c2_counterexample :
    (probeFailAttachments.detach freshSession).2.2 =
      some (.duckDBConnectionError ("Database attachment_r1_0 not found")) := by rfl

/-- Claim C2, amended: against a fresh session whose attachment files all
exist (and with the generated alias names distinct), attach succeeds; attach
is idempotent and reentrant — a second attach succeeds and leaves the
connection in the same attached state; a detach paired with the attach
succeeds and restores the fresh state; but detach is NOT idempotent: a second
detach (aliases already detached) fails.  Neither operation returns a
modified attachment set (they are pure in the `DuckDBAttachments` value). -/
theorem claim_c2 (a : DuckDBAttachments) (fe : String → Bool)
    (hfe : ∀ db ∈ a.attachments, fe db = true)
    (hnodup : (aliasNames a.random_id a.attachments 0).Nodup)
    (hne : a.attachments ≠ []) :
    (a.attach fe freshSession).2.2 = none ∧
    ((a.attach fe (a.attach fe freshSession).1).1 = (a.attach fe freshSession).1 ∧
     (a.attach fe (a.attach fe freshSession).1).2.2 = none) ∧
    ((a.detach (a.attach fe freshSession).1).2.2 = none ∧
     (a.detach (a.attach fe freshSession).1).1 = freshSession) ∧
    (a.detach ((a.detach (a.attach fe freshSession).1).1)).2.2 ≠ none := by
  have hat : (attachState a.random_id a.attachments 0 freshSession).attached =
      aliasNames a.random_id a.attachments 0 := by
    rw [attachState_fresh a.random_id a.attachments 0 freshSession hnodup
      (fun j hj => by simp [freshSession])]
    simp [freshSession]
  have h1 : a.attach fe freshSession =
      (⟨aliasNames a.random_id a.attachments 0, some a.search_path⟩,
       attachTrace a.random_id a.attachments 0 ++ [.setSearchPathStmt a.search_path], none) := by
    rw [DuckDBAttachments_attach_ok a fe freshSession hfe, hat]
  have h2 : a.attach fe (⟨aliasNames a.random_id a.attachments 0, some a.search_path⟩ : EngineState) =
      (⟨aliasNames a.random_id a.attachments 0, some a.search_path⟩,
       attachTrace a.random_id a.attachments 0 ++ [.setSearchPathStmt a.search_path], none) := by
    rw [DuckDBAttachments_attach_ok a fe _ hfe,
      attachState_noop a.random_id a.attachments 0 _
        (fun j hj => by simpa using aliasNames_mem a.random_id a.attachments 0 j hj)]
  have h3 : a.detach (⟨aliasNames a.random_id a.attachments 0, some a.search_path⟩ : EngineState) =
      (freshSession, detachTrace a.random_id a.attachments 0 ++ [.resetSearchPathStmt], none) := by
    unfold DuckDBAttachments.detach
    rw [detachLoop_run a.random_id a.attachments 0 (some a.search_path)]
    simp [DuckDBAttachments.reset_search_path, execStmt, freshSession]
  have h4 : (a.detach freshSession).2.2 ≠ none := by
    cases hatt : a.attachments with
    | nil => exact absurd hatt hne
    | cons db rest =>
      simp [DuckDBAttachments.detach, hatt, detachLoop, execStmt, freshSession]
  refine ⟨by rw [h1], ⟨?_, ?_⟩, ⟨?_, ?_⟩, ?_⟩
  · rw [h1]
    exact congrArg Prod.fst h2
  · rw [h1]
    rw [show (a.attach fe (⟨aliasNames a.random_id a.attachments 0, some a.search_path⟩,
      attachTrace a.random_id a.attachments 0 ++ [Stmt.setSearchPathStmt a.search_path],
      (none : Option Error)).1).2.2 = (a.attach fe (⟨aliasNames a.random_id a.attachments 0,
      some a.search_path⟩ : EngineState)).2.2 from rfl, h2]
  · rw [h1]
    rw [show ((⟨aliasNames a.random_id a.attachments 0, some a.search_path⟩,
      attachTrace a.random_id a.attachments 0 ++ [Stmt.setSearchPathStmt a.search_path],
      (none : Option Error)) : EngineState × List Stmt × Option Error).1 =
      (⟨aliasNames a.random_id a.attachments 0, some a.search_path⟩ : EngineState) from rfl, h3]
  · rw [h1]
    exact congrArg Prod.fst h3
  · rw [h1]
    have : ((⟨aliasNames a.random_id a.attachments 0, some a.search_path⟩,
        attachTrace a.random_id a.attachments 0 ++ [Stmt.setSearchPathStmt a.search_path],
        (none : Option Error)) : EngineState × List Stmt × Option Error).1 =
        (⟨aliasNames a.random_id a.attachments 0, some a.search_path⟩ : EngineState) := rfl
    rw [this, h3]
    exact h4

theorem claim_c2_witness :
    ((∀ db ∈ probeFailAttachments.attachments, (fun _ : String => true) db = true) ∧
     (aliasNames probeFailAttachments.random_id probeFailAttachments.attachments 0).Nodup ∧
     probeFailAttachments.attachments ≠ []) ∧
    ((probeFailAttachments.attach (fun _ => true) freshSession).2.2 = none ∧
     ((probeFailAttachments.attach (fun _ => true)
        (probeFailAttachments.attach (fun _ => true) freshSession).1).1 =
          (probeFailAttachments.attach (fun _ => true) freshSession).1 ∧
      (probeFailAttachments.attach (fun _ => true)
        (probeFailAttachments.attach (fun _ => true) freshSession).1).2.2 = none) ∧
     ((probeFailAttachments.detach
        (probeFailAttachments.attach (fun _ => true) freshSession).1).2.2 = none ∧
      (probeFailAttachments.detach
        (probeFailAttachments.attach (fun _ => true) freshSession).1).1 = freshSession) ∧
     (probeFailAttachments.detach ((probeFailAttachments.detach
        (probeFailAttachments.attach (fun _ => true) freshSession).1).1)).2.2 ≠ none) :=
  ⟨⟨by decide, by decide, by decide⟩,
   claim_c2 probeFailAttachments (fun _ => true) (by decide) (by decide) (by decide)⟩

/-! ## Claim C1: failure paths and the detach/reset bracket -/

/-- Claim C1 fails on the code: when the schema probe of `query_arrow` errors
after the auxiliary catalogs were attached on the connection of the caller,
the error is returned immediately (the `?` operator) and no detach/reset is
attempted — the returned connection state still carries the attached alias
and the session search path, contradicting the required bracket discipline.
This theorem evaluates the pipeline at the failing input. -/
theorem claim_c1_probe_failure_leaves_attachments :
    probeFailRun.2 = Except.error (.unableToGetSchema "Parser Error") ∧
    probeFailRun.1 = ⟨["attachment_r1_0"], some "main,attachment_r1_0"⟩ ∧
    probeFailRun.1 ≠ freshSession := by
  exact ⟨rfl, rfl, by decide⟩

/-! ## Claim C7: search-path shape -/

/-- Claim C7: the precomputed search path is the comma-join of a segment list
whose first segment is the primary catalog identifier followed by one
generated alias per unique attachment (duplicates collapsed by construction),
so the segment list has length 1 + the number of unique attachments; and for
an empty attachment list the search path equals the primary catalog name
alone. -/
theorem claim_c7 (id rid : String) (atts : List String) :
    (DuckDBAttachments.new id atts rid).search_path =
      String.intercalate ","
        (id :: (List.range (DuckDBAttachments.new id atts rid).attachments.length).map
          (get_attachment_name rid)) ∧
    (id :: (List.range (DuckDBAttachments.new id atts rid).attachments.length).map
        (get_attachment_name rid)).length = 1 + atts.toFinset.card ∧
    (atts = [] → (DuckDBAttachments.new id atts rid).search_path = id) := by
  refine ⟨rfl, ?_, ?_⟩
  · simp only [List.length_cons, List.length_map, List.length_range, DuckDBAttachments.new,
      List.card_toFinset]
    omega
  · rintro rfl
    show String.intercalate "," [id] = id
    rfl

theorem claim_c7_witness :
    (DuckDBAttachments.new "main_db" ([] : List String) "r1").search_path = "main_db" ∧
    ("main_db" :: (List.range (DuckDBAttachments.new "main_db"
        ["db1", "db2", "db1", "db3", "db2"] "r1").attachments.length).map
        (get_attachment_name "r1")).length =
      1 + (["db1", "db2", "db1", "db3", "db2"] : List String).toFinset.card :=
  ⟨(claim_c7 "main_db" "r1" []).2.2 rfl,
   (claim_c7 "main_db" "r1" ["db1", "db2", "db1", "db3", "db2"]).2.1⟩

end DuckDBConn
